import Mathlib

/-
Verification of the feedback ingestion / classification / reply pipeline.

The definitions below are shallow embeddings of the Python sources:
  message_processor.py, slack_reply_system.py, enhanced_message_classifier.py,
  message_classifier.py, feedback_mcp_server_unified.py, reddit_monitor_unified.py.

Modelling conventions:
  - Python floats are modelled as rationals; all constants involved are short
    decimals, and every comparison proved below is robust to that reading.
  - Python strings are modelled as Lean String (ASCII semantics for case
    mapping, word characters and whitespace, which covers all inputs used).
  - Randomness (random.randint ticket ids) is modelled as an explicit
    parameter; database rows and files are modelled as explicit lists.
-/

namespace EarninPipeline

/-! ### String utilities shared by the classifiers (Python `in`, `lower`, `split`) -/

/-- ASCII lowercasing, the behaviour of Python str.lower on ASCII text. -/
def lowerStr (s : String) : String := String.mk (s.data.map Char.toLower)

/-- Test whether the first list is an initial segment of the second. -/
def leadsList : List Char → List Char → Bool
  | [], _ => true
  | _ :: _, [] => false
  | a :: as, b :: bs => a == b && leadsList as bs

/-- Test whether the first list occurs contiguously inside the second
(the semantics of the Python `in` operator on strings). -/
def hasSubList : List Char → List Char → Bool
  | n, [] => leadsList n []
  | n, c :: hs => leadsList n (c :: hs) || hasSubList n hs

/-- Python `kw in s` for strings. -/
def occursIn (kw s : String) : Bool := hasSubList kw.data s.data

/-- The ASCII whitespace characters recognised by Python str.split and regex
whitespace: space, tab, newline, vertical tab, form feed, carriage return. -/
def isPySpace (c : Char) : Bool :=
  c == ' ' || c == '\t' || c == '\n' || c == Char.ofNat 11 || c == Char.ofNat 12 || c == '\r'

/-- Python str.split() with no argument: split on whitespace runs,
discarding empty fields. -/
def pyWords (s : String) : List String :=
  (s.split isPySpace).filter (fun w => w ≠ "")

/-- Number of whitespace-separated words, Python `len(kw.split())`. -/
def wordCount (s : String) : Nat := (pyWords s).length

/-- Python `sum(1 for w in kws if w in m)`: how many keywords of the list
occur in the message. -/
def countMatches (kws : List String) (m : String) : Nat :=
  (kws.filter (fun w => occursIn w m)).length

/-- The apostrophe character, kept out of string literals. -/
def apos : Char := Char.ofNat 39

/-! ### `EnhancedMessageClassifier.analyze_sentiment` (enhanced_message_classifier.py, lines 130-169) -/

/-- `EnhancedMessageClassifier.problem_phrases`, transcribed verbatim
(the source lists "not receiving" twice). -/
def problemPhrases : List String :=
  ["not working", "not getting", "not able to", "cannot",
   String.mk ['c', 'a', 'n', apos, 't'], "unable to",
   "not receiving", "not processing", "not loading", "not responding",
   "not functioning", "not accessible", "not available", "not connecting",
   "not syncing", "not updating", "not downloading", "not uploading",
   "not sending", "not receiving", "not displaying", "not showing"]

/-- `EnhancedMessageClassifier.positive_keywords`. -/
def positiveKeywordsE : List String :=
  ["love", "great", "awesome", "amazing", "perfect", "excellent", "good",
   "thanks", "thank you", "wonderful", "fantastic", "brilliant", "outstanding",
   "helpful", "useful", "satisfied", "happy", "pleased", "impressed",
   "recommend", "best", "top", "exceeded", "surpassed", "delighted"]

/-- `EnhancedMessageClassifier.negative_keywords`. -/
def negativeKeywordsE : List String :=
  ["hate", "terrible", "awful", "horrible", "bad", "worst", "disappointed",
   "frustrated", "angry", "annoyed", "upset", "disgusted", "displeased",
   "broken", "bug", "error", "issue", "problem", "complaint", "concern",
   "unhappy", "unsatisfied", "poor", "fail", "failed", "failure",
   "slow", "crashed", "freeze", "glitch", "malfunction", "defective"]

/-- `EnhancedMessageClassifier.analyze_sentiment`, returning the
(sentiment, confidence) pair.  The third returned component of the Python
function is a free-form reasoning string not used by any control flow and is
omitted from the model. -/
def analyzeSentiment (message : String) : String × ℚ :=
  if message = "" then ("neutral", 0)
  else
    let ml := lowerStr message
    if problemPhrases.any (fun p => occursIn p ml) then ("negative", 8/10)
    else
      let p := countMatches positiveKeywordsE ml
      let n := countMatches negativeKeywordsE ml
      if p + n = 0 then ("neutral", 3/10)
      else if p > n then ("positive", min ((p : ℚ) / ((p : ℚ) + (n : ℚ))) 1)
      else if n > p then ("negative", min ((n : ℚ) / ((p : ℚ) + (n : ℚ))) 1)
      else ("neutral", 4/10)

/-- The sentiment pass as the specification words it: problem phrases force
(negative, 0.8); otherwise majority keyword count wins with confidence
max(p,n)/(p+n) clamped to 1; equal nonzero counts give neutral with the fixed
mid confidence; zero matches give neutral with the fixed low confidence. -/
def sentimentSpec (message : String) : String × ℚ :=
  let ml := lowerStr message
  if problemPhrases.any (fun p => occursIn p ml) then ("negative", 8/10)
  else
    let p := countMatches positiveKeywordsE ml
    let n := countMatches negativeKeywordsE ml
    if p + n = 0 then ("neutral", 3/10)
    else if p ≠ n then
      ((if p > n then "positive" else "negative"),
        min (((max p n : ℕ) : ℚ) / ((p : ℚ) + (n : ℚ))) 1)
    else ("neutral", 4/10)

/-- C4.  For every non-empty input text, the sentiment pass returns
(negative, 0.8) whenever a problem phrase occurs in the lowercased text,
bypassing the keyword tally; otherwise it returns the majority sentiment with
confidence max(p,n)/(p+n) clamped to 1.0 when the positive count p and the
negative count n differ, neutral with the fixed mid confidence 0.4 when
p = n and p + n > 0, and neutral with the fixed low confidence 0.3 when
p + n = 0. -/
theorem analyzeSentiment_matchesSpec (s : String) (hs : s ≠ "") :
    analyzeSentiment s = sentimentSpec s := by
  unfold analyzeSentiment sentimentSpec
  rw [if_neg hs]
  dsimp only
  by_cases hp : problemPhrases.any (fun p => occursIn p (lowerStr s)) = true
  · rw [if_pos hp, if_pos hp]
  · rw [if_neg hp, if_neg hp]
    set p := countMatches positiveKeywordsE (lowerStr s) with hpdef
    set n := countMatches negativeKeywordsE (lowerStr s) with hndef
    by_cases h0 : p + n = 0
    · rw [if_pos h0, if_pos h0]
    · rw [if_neg h0, if_neg h0]
      rcases Nat.lt_trichotomy p n with hlt | heq | hgt

      · have h1 : ¬ p > n := by omega
        have hne : p ≠ n := by omega
        rw [if_neg h1, if_pos hlt, if_pos hne, if_neg h1]
        have hmx : max p n = n := by omega
        rw [hmx]
      · have h1 : ¬ p > n := by omega
        have h2 : ¬ n > p := by omega
        have hne : ¬ p ≠ n := by omega
        rw [if_neg h1, if_neg h2, if_neg hne]
      · have hne : p ≠ n := by omega
        rw [if_pos hgt, if_pos hne, if_pos hgt]
        have hmx : max p n = p := by omega
        rw [hmx]

/-- Witness for C4 at a concrete input: the text "it is not working" contains
the problem phrase "not working", so the pass returns (negative, 0.8). -/
theorem analyzeSentiment_matchesSpec_witness :
    ("it is not working" ≠ "") ∧
      analyzeSentiment "it is not working" = ("negative", 8/10) :=
  ⟨by decide,
    (analyzeSentiment_matchesSpec "it is not working" (by decide)).trans
      (by with_unfolding_all decide)⟩

/-! ### `MessageClassifier._classify_level1` (message_classifier.py, lines 220-264) -/

/-- The Level-1 taxonomy categories of message_classifier.py. -/
inductive L1Cat
  | payments
  | productFeedback
  | technicalIssues
  | customerExperience
  | trustSecurity
  | onboarding
  | notifications
  | generalSentiment
  | nonRelevant
deriving DecidableEq

/-- `MessageClassifier.KEYWORDS`, in dictionary (insertion) order. -/
def keywordTable : List (L1Cat × List String) :=
  [(.payments,
    ["cash out", "cashout", "instant cash", "transfer", "withdraw", "deposit",
     "fee", "fees", "cost", "charge", "money", "payment", "balance", "funds",
     "earning", "earnings", "get the earning", "not able to get", "unable to get",
     "not able to cashout", "unable to cashout", "cashout issue", "cashout problem"]),
   (.productFeedback,
    ["feature", "functionality", "tip jar", "earnin card", "insights", "analytics",
     "financial tools", "app", "interface", "ui", "ux", "design", "navigation",
     "product", "earnin product", "liked", "didnt like", "dont like", "like it"]),
   (.technicalIssues,
    ["bug", "error", "crash", "freeze", "slow", "loading", "connection", "network",
     "technical", "issue", "problem", "broken", "not working", "glitch"]),
   (.customerExperience,
    ["support", "help", "customer service", "assistance", "response", "wait time",
     "experience", "satisfaction", "frustrated", "confused", "unclear", "customer support"]),
   (.trustSecurity,
    ["security", "privacy", "trust", "safe", "secure", "data", "personal information",
     "fraud", "scam", "suspicious", "verification", "identity", "security features"]),
   (.onboarding,
    ["sign up", "signup", "register", "account", "verification", "setup", "onboarding",
     "bank account", "connect", "link", "verify", "document", "id", "bank connection"]),
   (.notifications,
    ["notification", "alert", "reminder", "email", "sms", "push", "message",
     "communication", "update", "newsletter"])]

/-- The high-signal terms whose weight is doubled. -/
def highSignalTerms : List String :=
  ["cashout", "cash out", "instant cash", "withdraw", "transfer money"]

/-- The generic problem terms whose weight is multiplied by 1.5. -/
def genericProblemTerms : List String :=
  ["issue", "problem", "bug", "error", "broken", "not working"]

/-- The weight a single matching keyword contributes:
base weight 0.2 * (words in the phrase) + 0.3, doubled for high-signal terms
and multiplied by 1.5 for generic problem terms. -/
def kwWeight (kw : String) : ℚ :=
  let base : ℚ := (wordCount kw : ℚ) * (2/10) + 3/10
  if highSignalTerms.contains kw then base * 2
  else if genericProblemTerms.contains kw then base * (3/2)
  else base

/-- A category score: the summed weights of its matching keywords, normalized
by the length of its keyword list. -/
def catScore (m : String) (kws : List String) : ℚ :=
  ((kws.filter (fun k => occursIn k m)).map kwWeight).sum / (kws.length : ℚ)

/-- The fallback positive words checked when all scores are below epsilon. -/
def fallbackPositiveWords : List String :=
  ["love", "great", "awesome", "amazing", "perfect", "excellent", "good",
   "thanks", "thank you"]

/-- The fallback negative words checked when all scores are below epsilon. -/
def fallbackNegativeWords : List String :=
  ["hate", "terrible", "awful", "horrible", "bad", "worst", "disappointed",
   "frustrated"]

/-- The per-category score list, in the iteration order of the keyword
dictionary (the order Python max scans). -/
def level1Scores (m : String) : List (L1Cat × ℚ) :=
  keywordTable.map (fun p => (p.1, catScore m p.2))

/-- Python `max(category_scores, key=category_scores.get)`: the first entry
whose value is maximal (a later entry replaces the current one only when
strictly greater). -/
def pickFirstMax (h : L1Cat × ℚ) (t : List (L1Cat × ℚ)) : L1Cat × ℚ :=
  t.foldl (fun a x => if x.2 > a.2 then x else a) h

/-- Python `max(category_scores.values())`. -/
def level1Max (m : String) : ℚ :=
  match level1Scores m with
  | [] => 0
  | sc :: rest => rest.foldl (fun a x => max a x.2) sc.2

/-- `MessageClassifier._classify_level1` on the cleaned (lowercased,
whitespace-collapsed) message. -/
def classifyLevel1 (m : String) : L1Cat × ℚ :=
  if m = "" then (.nonRelevant, 0)
  else
    match level1Scores m with
    | [] => (.nonRelevant, 0)
    | sc :: rest =>
      if level1Max m < 2/100 then
        if 0 < countMatches fallbackPositiveWords m ∨ 0 < countMatches fallbackNegativeWords m
        then (.generalSentiment, 5/10)
        else (.nonRelevant, 1/10)
      else
        let best := pickFirstMax sc rest
        (best.1, min best.2 1)

theorem foldl_max_le_self (l : List (L1Cat × ℚ)) (a : ℚ) :
    a ≤ l.foldl (fun a x => max a x.2) a := by
  induction l generalizing a with
  | nil => exact le_refl a
  | cons x t ih =>
    calc a ≤ max a x.2 := le_max_left _ _
    _ ≤ t.foldl (fun a x => max a x.2) (max a x.2) := ih _

theorem foldl_max_is_ub (l : List (L1Cat × ℚ)) (a : ℚ) :
    ∀ x ∈ l, x.2 ≤ l.foldl (fun a x => max a x.2) a := by
  induction l generalizing a with
  | nil => intro x hx; cases hx
  | cons y t ih =>
    intro x hx
    rcases List.mem_cons.mp hx with h | h
    · subst h
      calc x.2 ≤ max a x.2 := le_max_right _ _
      _ ≤ t.foldl (fun a x => max a x.2) (max a x.2) := foldl_max_le_self _ _
    · exact ih (max a y.2) x h

theorem pickFirstMax_mem (h : L1Cat × ℚ) (t : List (L1Cat × ℚ)) :
    pickFirstMax h t ∈ h :: t := by
  induction t generalizing h with
  | nil => exact List.mem_singleton.mpr rfl
  | cons x t ih =>
    unfold pickFirstMax at *
    simp only [List.foldl_cons]
    by_cases hx : x.2 > h.2
    · rw [if_pos hx]
      rcases List.mem_cons.mp (ih x) with h1 | h1
      · rw [h1]; exact List.mem_cons_of_mem _ (List.mem_cons_self _ _)
      · exact List.mem_cons_of_mem _ (List.mem_cons_of_mem _ h1)
    · rw [if_neg hx]
      rcases List.mem_cons.mp (ih h) with h1 | h1
      · rw [h1]; exact List.mem_cons_self _ _
      · exact List.mem_cons_of_mem _ (List.mem_cons_of_mem _ h1)

theorem pickFirstMax_snd (h : L1Cat × ℚ) (t : List (L1Cat × ℚ)) :
    (pickFirstMax h t).2 = t.foldl (fun a x => max a x.2) h.2 := by
  induction t generalizing h with
  | nil => rfl
  | cons x t ih =>
    unfold pickFirstMax at *
    simp only [List.foldl_cons]
    by_cases hx : x.2 > h.2
    · rw [if_pos hx, ih x, max_eq_right (le_of_lt hx)]
    · rw [if_neg hx, ih h, max_eq_left (le_of_not_lt hx)]

/-- C5.  For every non-empty (cleaned) input text: every category score is
computed as the normalized weighted keyword sum (definition catScore) and is
bounded by the running maximum; when the maximum reaches the 0.02 epsilon the
classifier returns a category whose score attains that maximum; otherwise it
falls back to General Sentiment when a generic positive or negative sentiment
keyword is present and to Non-relevant otherwise. -/
theorem classifyLevel1_matchesSpec (m : String) (hm : m ≠ "") :
    (∀ c kws, (c, kws) ∈ keywordTable → catScore m kws ≤ level1Max m) ∧
    ((2/100 : ℚ) ≤ level1Max m →
      ∃ kws, ((classifyLevel1 m).1, kws) ∈ keywordTable ∧
        catScore m kws = level1Max m) ∧
    (level1Max m < 2/100 →
      (classifyLevel1 m).1 =
        if 0 < countMatches fallbackPositiveWords m ∨ 0 < countMatches fallbackNegativeWords m
        then L1Cat.generalSentiment else L1Cat.nonRelevant) := by
  refine ⟨?_, ?_, ?_⟩
  · intro c kws hmem
    have hsc : (c, catScore m kws) ∈ level1Scores m := by
      unfold level1Scores
      exact List.mem_map.mpr ⟨(c, kws), hmem, rfl⟩
    unfold level1Max
    revert hsc
    cases hls : level1Scores m with
    | nil => intro hsc; cases hsc
    | cons sc rest =>
      intro hsc
      rcases List.mem_cons.mp hsc with h1 | h1
      · have h2 : catScore m kws = sc.2 := by rw [← h1]
        rw [h2]
        exact foldl_max_le_self _ _
      · exact foldl_max_is_ub rest sc.2 _ h1
  · intro hge
    unfold classifyLevel1
    rw [if_neg hm]
    cases hls : level1Scores m with
    | nil => simp [level1Scores, keywordTable] at hls
    | cons sc rest =>
      dsimp only
      rw [if_neg (not_lt.mpr hge)]
      have hmem := pickFirstMax_mem sc rest
      rw [← hls] at hmem
      unfold level1Scores at hmem
      rcases List.mem_map.mp hmem with ⟨p, hp, hpe⟩
      refine ⟨p.2, ?_, ?_⟩
      · have h1 : (pickFirstMax sc rest).1 = p.1 := by rw [← hpe]
        rw [h1]
        exact hp
      · have h2 : (pickFirstMax sc rest).2 = catScore m p.2 := by rw [← hpe]
        have h3 : (pickFirstMax sc rest).2 = level1Max m := by
          rw [pickFirstMax_snd]
          unfold level1Max
          rw [hls]
        rw [← h2, h3]
  · intro hlt
    unfold classifyLevel1
    rw [if_neg hm]
    cases hls : level1Scores m with
    | nil => simp [level1Scores, keywordTable] at hls
    | cons sc rest =>
      dsimp only
      rw [if_pos hlt]
      split
      case isTrue h => rfl
      case isFalse h => rfl

/-- Witness for C5 at the concrete input "cashout": the Payments category
attains the maximal normalized score, which clears the epsilon. -/
theorem classifyLevel1_matchesSpec_witness :
    ∃ kws, ((classifyLevel1 "cashout").1, kws) ∈ keywordTable ∧
      catScore "cashout" kws = level1Max "cashout" :=
  (classifyLevel1_matchesSpec "cashout" (by decide)).2.1 (by with_unfolding_all decide)

/-! ### `FeedbackClassifier._classify_severity` and `BusinessImpactScorer.score_feedback`
(feedback_mcp_server_unified.py, lines 433-468 and 473-509) -/

/-- Sentiment labels of the unified feedback server. -/
inductive FSentiment
  | positive
  | negative
  | neutral
deriving DecidableEq

/-- Feedback categories of the unified feedback server. -/
inductive FCategory
  | bug
  | featureRequest
  | complaint
  | praise
  | question
  | spam
  | other
deriving DecidableEq

/-- Severity tiers of the unified feedback server. -/
inductive FSeverity
  | low
  | medium
  | high
  | critical
deriving DecidableEq

/-- The fields of a Feedback record read by the severity classifier and the
business impact scorer. -/
structure FeedbackRec where
  rating : Option Int
  sentiment : Option FSentiment
  category : Option FCategory
  severity : Option FSeverity
  piiDetected : Bool

/-- The additive severity score of `FeedbackClassifier._classify_severity`. -/
def severityScore (f : FeedbackRec) : Int :=
  (match f.rating with
   | some r => if r ≤ 2 then 3 else if r = 3 then 1 else 0
   | none => 0)
  + (if f.sentiment = some .negative then 2
     else if f.sentiment = some .positive then -1 else 0)
  + (if f.category = some .bug then 2
     else if f.category = some .complaint then 1 else 0)
  + (if f.piiDetected then 1 else 0)

/-- `FeedbackClassifier._classify_severity`: the additive score bucketed into
the four tiers. -/
def classifySeverity (f : FeedbackRec) : FSeverity :=
  if severityScore f ≥ 4 then .critical
  else if severityScore f ≥ 2 then .high
  else if severityScore f ≥ 1 then .medium
  else .low

/-- `BusinessImpactScorer.score_feedback`: additive model over rating,
sentiment, category, severity and the PII flag, clamped to [0, 1]. -/
def scoreFeedback (f : FeedbackRec) : ℚ :=
  let s : ℚ :=
    (match f.rating with
     | some r => ((5 - r : Int) : ℚ) * (2/10)
     | none => 0)
    + (if f.sentiment = some .negative then 3/10
       else if f.sentiment = some .positive then -(1/10) else 0)
    + (if f.category = some .bug then 4/10
       else if f.category = some .complaint then 3/10
       else if f.category = some .featureRequest then 1/10 else 0)
    + (if f.severity = some .critical then 5/10
       else if f.severity = some .high then 3/10
       else if f.severity = some .medium then 1/10 else 0)
    + (if f.piiDetected then 2/10 else 0)
  min 1 (max 0 s)

/-- C9.  For every feedback record, the business impact score lies in the
closed interval [0, 1], and the derived severity is exactly the four-tier
bucketing of the additive severity score with thresholds >= 4 critical,
>= 2 high, >= 1 medium, else low. -/
theorem scoreFeedback_bounds_and_severity_tiers (f : FeedbackRec) :
    0 ≤ scoreFeedback f ∧ scoreFeedback f ≤ 1 ∧
    classifySeverity f =
      (if 4 ≤ severityScore f then FSeverity.critical
       else if 2 ≤ severityScore f then FSeverity.high
       else if 1 ≤ severityScore f then FSeverity.medium
       else FSeverity.low) ∧
    (classifySeverity f = FSeverity.low ∨ classifySeverity f = FSeverity.medium ∨
     classifySeverity f = FSeverity.high ∨ classifySeverity f = FSeverity.critical) := by
  refine ⟨?_, ?_, ?_, ?_⟩
  · unfold scoreFeedback
    exact le_min (by norm_num) (le_max_left 0 _)
  · unfold scoreFeedback
    exact min_le_left 1 _
  · unfold classifySeverity
    rfl
  · unfold classifySeverity
    split
    · exact Or.inr (Or.inr (Or.inr rfl))
    · split
      · exact Or.inr (Or.inr (Or.inl rfl))
      · split
        · exact Or.inr (Or.inl rfl)
        · exact Or.inl rfl

/-! ### `SlackReplySystem` reply templates (slack_reply_system.py, lines 172-174 and 348-360) -/

/-- `SlackReplySystem.positive_reply` (fixed template). -/
def positiveReply : String :=
  "Thank you for your kind words! I" ++ String.mk [apos] ++
  "m glad you found our app helpful and appreciate your feedback!"

/-- `SlackReplySystem.neutral_reply` (fixed template). -/
def neutralReply : String :=
  "Thank you for your feedback! We appreciate you taking the time to share your thoughts with us."

/-- The part of `SlackReplySystem.negative_reply_template` before the first
interpolation of the ticket id. -/
def negativeReplyPre : String :=
  "Thank you for your feedback! We" ++ String.mk [apos] ++
  "re a customer-centric organization and truly appreciate you sharing your concern. We" ++
  String.mk [apos] ++ "ve logged it as "

/-- The part of `SlackReplySystem.negative_reply_template` between the two
interpolations of the ticket id; it carries the tracking URL. -/
def negativeReplyMid : String :=
  ", and our team is actively working on it. You can track your ticket" ++
  String.mk [apos] ++ "s progress here: https://jira.example.com/browse/"

/-- `SlackReplySystem.negative_reply_template.format(jira_ticket=t)`. -/
def negativeReplyApplied (t : String) : String :=
  negativeReplyPre ++ t ++ negativeReplyMid ++ t ++ "."

/-- The reply text chosen by `SlackReplySystem.process_message` from the
classified sentiment and the ticket id carried by the classification result. -/
def replyTextFor (sentiment : String) (jiraTicket : String) : String :=
  if sentiment = "positive" then positiveReply
  else if sentiment = "negative" then negativeReplyApplied jiraTicket
  else neutralReply

/-- `EnhancedMessageClassifier._generate_jira_ticket`: the classifier draws a
fresh random number in [100000, 999999]; the draw is an explicit parameter of
the model.  This — not the message-id-keyed generator — is the ticket that
`process_message` interpolates into the negative reply. -/
def generateJiraTicketE (draw : Nat) : String :=
  "JIRA-" ++ toString (100000 + draw % 900000)

/-- Counterexample to C7 as stated: positive and neutral sentiment do NOT
share one reply template — the two templates are distinct strings, so there
is a concrete ticket id for which the positive reply differs from the neutral
reply. -/
theorem replyTemplates_positive_neutral_distinct :
    replyTextFor "positive" "JIRA-613911" ≠ replyTextFor "neutral" "JIRA-613911" := by
  decide

/-- C7 as amended.  The reply text is chosen by sentiment, with three
templates: positive sentiment uses one fixed template, neutral sentiment uses
a different fixed template, and negative sentiment uses a template that
interpolates the classifier-supplied ticket id twice, the second time inside
the tracking URL https://jira.example.com/browse/. -/
theorem replyTextFor_bySentiment (t : String) :
    replyTextFor "positive" t = positiveReply ∧
    replyTextFor "neutral" t = neutralReply ∧
    positiveReply ≠ neutralReply ∧
    replyTextFor "negative" t = negativeReplyPre ++ t ++ negativeReplyMid ++ t ++ "." ∧
    occursIn "https://jira.example.com/browse/" negativeReplyMid = true := by
  refine ⟨rfl, rfl, by decide, rfl, by decide⟩

/-! ### `MessageProcessor.process_single_message` and `mark_message_processed`
(message_processor.py, lines 212-267 and 269-304) -/

/-- The fields of message_classifier.ClassificationResult consumed by the
processor (the confidence and reasoning fields play no role here). -/
structure MPClassification where
  level1 : String
  level2 : String
  slackChannel : String
  jiraTicket : String
deriving DecidableEq

/-- A messages-table row, restricted to the columns the processor writes. -/
structure MsgRow where
  id : String
  processed : Bool
  category : Option String
  sentiment : Option String
  updatedAt : Option String
deriving DecidableEq

/-- `MessageProcessor.mark_message_processed`: set processed, write the
Level-1 label into the category column, write the literal "neutral" into the
sentiment column, and refresh updated_at. -/
def markMessageProcessed (db : List MsgRow) (mid : String) (cls : MPClassification)
    (now : String) : List MsgRow :=
  db.map (fun r =>
    if r.id = mid then
      { r with processed := true, category := some cls.level1,
               sentiment := some "neutral", updatedAt := some now }
    else r)

/-- `MessageProcessor.process_single_message`: classify, then attempt the
Slack post when a poster is available and the classification resolved a
channel; on a successful or skipped post mark the message processed and
return success, on a failed post return failure immediately (the early return
on line 253 of message_processor.py skips mark_message_processed). -/
def processSingleMessage (db : List MsgRow) (mid : String) (cls : MPClassification)
    (posterAvailable postSucceeds : Bool) (now : String) : List MsgRow × Bool :=
  if posterAvailable = true ∧ cls.slackChannel ≠ "" then
    if postSucceeds = true then (markMessageProcessed db mid cls now, true)
    else (db, false)
  else (markMessageProcessed db mid cls now, true)

/-- Counterexample to C1 as stated: with a poster available, a resolved
destination channel and a failing post, the pipeline leaves the message
unprocessed (processed stays false, updated_at stays empty) and reports
failure — it does not mark the message processed regardless of the post
outcome. -/
theorem processSingleMessage_failedPost_not_marked :
    processSingleMessage [⟨"m1", false, none, none, none⟩] "m1"
        ⟨"Payments and Cash Out", "Cash Out", "C09LBDF1MT8", "JIRA-100001"⟩
        true false "2026-10-12T00:00:00"
      = ([⟨"m1", false, none, none, none⟩], false) := by
  decide

/-- C1 as amended.  After classification the message is marked processed
(with updated_at refreshed) exactly when the post succeeds or posting is
skipped because no poster is available or no destination channel resolves;
a failed post leaves the database untouched — the message stays unprocessed
and is reported as a failure. -/
theorem processSingleMessage_outcome (db : List MsgRow) (mid : String)
    (cls : MPClassification) (pa ps : Bool) (now : String) :
    (∀ r ∈ db, r.id = mid →
      (ps = true ∨ pa = false ∨ cls.slackChannel = "") →
        ({ r with processed := true, category := some cls.level1,
                  sentiment := some "neutral", updatedAt := some now }
            ∈ (processSingleMessage db mid cls pa ps now).1 ∧
          (processSingleMessage db mid cls pa ps now).2 = true)) ∧
    (pa = true → cls.slackChannel ≠ "" → ps = false →
      processSingleMessage db mid cls pa ps now = (db, false)) := by
  constructor
  · intro r hr hid hcase
    have hmark : { r with processed := true, category := some cls.level1,
                          sentiment := some "neutral", updatedAt := some now }
        ∈ markMessageProcessed db mid cls now := by
      unfold markMessageProcessed
      refine List.mem_map.mpr ⟨r, hr, ?_⟩
      rw [if_pos hid]
    unfold processSingleMessage
    by_cases hc : pa = true ∧ cls.slackChannel ≠ ""
    · rw [if_pos hc]
      have hps : ps = true := by
        rcases hcase with h | h | h
        · exact h
        · exact absurd hc.1 (by rw [h]; exact Bool.false_ne_true)
        · exact absurd h hc.2
      rw [if_pos hps]
      exact ⟨hmark, rfl⟩
    · rw [if_neg hc]
      exact ⟨hmark, rfl⟩
  · intro hpa hch hps
    unfold processSingleMessage
    rw [if_pos ⟨hpa, hch⟩, if_neg (by rw [hps]; exact Bool.false_ne_true)]

/-- Witness for C1 as amended: a concrete successful post marks the concrete
row processed with the Level-1 label and refreshed updated_at, and a concrete
failed post returns the database unchanged with a failure flag. -/
theorem processSingleMessage_outcome_witness :
    (⟨"m1", true, some "Payments and Cash Out", some "neutral", some "t1"⟩
        ∈ (processSingleMessage [⟨"m1", false, none, none, none⟩] "m1"
            ⟨"Payments and Cash Out", "Cash Out", "C09LBDF1MT8", "JIRA-100001"⟩
            true true "t1").1) ∧
    processSingleMessage [⟨"m1", false, none, none, none⟩] "m1"
        ⟨"Payments and Cash Out", "Cash Out", "C09LBDF1MT8", "JIRA-100001"⟩
        true false "t1" = ([⟨"m1", false, none, none, none⟩], false) := by
  refine ⟨?_, ?_⟩
  · exact ((processSingleMessage_outcome [⟨"m1", false, none, none, none⟩] "m1"
      ⟨"Payments and Cash Out", "Cash Out", "C09LBDF1MT8", "JIRA-100001"⟩
      true true "t1").1 ⟨"m1", false, none, none, none⟩ (by decide) rfl
      (Or.inl rfl)).1
  · exact (processSingleMessage_outcome [⟨"m1", false, none, none, none⟩] "m1"
      ⟨"Payments and Cash Out", "Cash Out", "C09LBDF1MT8", "JIRA-100001"⟩
      true false "t1").2 rfl (by decide) rfl

/-- Counterexample to C8 as stated: the stored sentiment column is the
constant "neutral", not the classified sentiment of the message — for the
content "not working" the sentiment pass of the classifier yields "negative",
yet the row is stored with sentiment "neutral". -/
theorem markMessageProcessed_sentiment_counterexample :
    (analyzeSentiment "not working").1 = "negative" ∧
    markMessageProcessed [⟨"m2", false, none, none, none⟩] "m2"
        ⟨"Technical Issues / Bugs", "App UX / Performance", "C09LA2F4S05", "JIRA-100002"⟩
        "t2"
      = [⟨"m2", true, some "Technical Issues / Bugs", some "neutral", some "t2"⟩] := by
  constructor
  · with_unfolding_all decide
  · decide

/-- C8 as amended.  When the pipeline marks a message processed, the row gets
the classification Level-1 label in its category column, but its sentiment
column is set to the literal "neutral" regardless of the message content;
rows with other ids are untouched. -/
theorem markMessageProcessed_projection (db : List MsgRow) (mid : String)
    (cls : MPClassification) (now : String) :
    (∀ r ∈ db, r.id = mid →
      { r with processed := true, category := some cls.level1,
               sentiment := some "neutral", updatedAt := some now }
          ∈ markMessageProcessed db mid cls now) ∧
    (∀ r ∈ db, r.id ≠ mid → r ∈ markMessageProcessed db mid cls now) := by
  constructor
  · intro r hr hid
    unfold markMessageProcessed
    refine List.mem_map.mpr ⟨r, hr, ?_⟩
    rw [if_pos hid]
  · intro r hr hid
    unfold markMessageProcessed
    refine List.mem_map.mpr ⟨r, hr, ?_⟩
    rw [if_neg hid]

/-- Witness for C8 as amended at a concrete row and classification. -/
theorem markMessageProcessed_projection_witness :
    ⟨"m2", true, some "Technical Issues / Bugs", some "neutral", some "t2"⟩
      ∈ markMessageProcessed [⟨"m2", false, none, none, none⟩] "m2"
          ⟨"Technical Issues / Bugs", "App UX / Performance", "C09LA2F4S05", "JIRA-100002"⟩
          "t2" :=
  (markMessageProcessed_projection [⟨"m2", false, none, none, none⟩] "m2"
    ⟨"Technical Issues / Bugs", "App UX / Performance", "C09LA2F4S05", "JIRA-100002"⟩
    "t2").1 ⟨"m2", false, none, none, none⟩ (by decide) rfl

/-! ### `SlackReplySystem` reply deduplication (slack_reply_system.py,
lines 178-197, 242-273 and 322-380) -/

/-- The fields of a fetched Slack message consulted by the reply filter. -/
structure SlackMsg where
  ts : String
  text : String
  botId : Option String
  subtype : Option String
  user : Option String
deriving DecidableEq

/-- The reply-subsystem state: the in-memory processed set, the persisted
append-only processed_messages.txt log, and the log of successfully posted
replies (one entry per reply actually delivered). -/
structure ReplyState where
  memory : List String
  file : List String
  replies : List String
deriving DecidableEq

/-- `SlackReplySystem.should_reply_to_message`: skip already-processed
timestamps, bot messages, empty texts and bot-user authors. -/
def shouldReplyToMessage (mem : List String) (m : SlackMsg) : Bool :=
  if mem.contains m.ts then false
  else if m.botId.isSome || m.subtype == some "bot_message" then false
  else if m.text == "" then false
  else if (match m.user with | some u => u.startsWith "B" | none => false) then false
  else true

/-- `SlackReplySystem.process_message`: reply when the filter passes, and only
upon a successful post add the native timestamp to the in-memory set and
append it to the persisted log; a failed post changes nothing. -/
def processReplyMessage (st : ReplyState) (m : SlackMsg) (postSucceeds : Bool) : ReplyState :=
  if shouldReplyToMessage st.memory m then
    if postSucceeds then
      { memory := m.ts :: st.memory,
        file := st.file ++ [m.ts],
        replies := st.replies ++ [m.ts] }
    else st
  else st

/-- An execution event of the reply subsystem: a process restart (which
reloads the in-memory set from the persisted log, as load_processed_messages
does) or the handling of one fetched message whose post either succeeds or
fails.  Per the cooperative single-worker execution model, an in-flight
message handler runs to completion; interruption happens between events. -/
inductive ReplyEvent
  | restart
  | message (m : SlackMsg) (postSucceeds : Bool)

/-- One step of the reply subsystem. -/
def stepReply (st : ReplyState) : ReplyEvent → ReplyState
  | .restart => { st with memory := st.file }
  | .message m ok => processReplyMessage st m ok

/-- A whole execution: a fold of events over a state. -/
def runReply (st : ReplyState) (evs : List ReplyEvent) : ReplyState :=
  evs.foldl stepReply st

/-- The state of a fresh deployment: empty log, empty memory, no replies. -/
def initialReplyState : ReplyState := ⟨[], [], []⟩

/-- The inductive invariant of the reply subsystem: the reply log and the
persisted file coincide, the file is contained in the in-memory set, and the
file has no duplicates. -/
def ReplyInv (st : ReplyState) : Prop :=
  st.replies = st.file ∧ (∀ ts, ts ∈ st.file → ts ∈ st.memory) ∧ st.file.Nodup

theorem stepReply_preserves_inv (st : ReplyState) (ev : ReplyEvent)
    (h : ReplyInv st) : ReplyInv (stepReply st ev) := by
  obtain ⟨hrf, hfm, hnd⟩ := h
  cases ev with
  | restart =>
    exact ⟨hrf, fun ts hts => hts, hnd⟩
  | message m ok =>
    unfold stepReply processReplyMessage
    dsimp only
    by_cases hs : shouldReplyToMessage st.memory m = true
    · rw [if_pos hs]
      by_cases hok : ok = true
      · rw [if_pos hok]
        have hmem : m.ts ∉ st.memory := by
          intro hc
          have hcon : st.memory.contains m.ts = true := by simpa using hc
          unfold shouldReplyToMessage at hs
          rw [if_pos hcon] at hs
          exact Bool.false_ne_true hs
        have hfile : m.ts ∉ st.file := fun hc => hmem (hfm m.ts hc)
        refine ⟨?_, ?_, ?_⟩
        · dsimp only
          rw [hrf]
        · dsimp only
          intro ts hts
          rcases List.mem_append.mp hts with h1 | h1
          · exact List.mem_cons_of_mem _ (hfm ts h1)
          · rcases List.mem_singleton.mp h1 with rfl
            exact List.mem_cons_self _ _
        · dsimp only
          rw [List.nodup_append]
          exact ⟨hnd, List.nodup_singleton _,
            by intro a ha hb; rcases List.mem_singleton.mp hb with rfl; exact hfile ha⟩
      · rw [if_neg hok]
        exact ⟨hrf, hfm, hnd⟩
    · rw [if_neg hs]
      exact ⟨hrf, hfm, hnd⟩

theorem runReply_preserves_inv (st : ReplyState) (evs : List ReplyEvent)
    (h : ReplyInv st) : ReplyInv (runReply st evs) := by
  induction evs generalizing st with
  | nil => exact h
  | cons ev t ih => exact ih (stepReply st ev) (stepReply_preserves_inv st ev h)

/-- C2.  Starting from a fresh deployment, over any sequence of message
handlings (with arbitrary post successes and failures) and process restarts:
every native timestamp receives at most one successful reply; a timestamp is
appended to the persisted replied-set only by a successful post (a failed
post, or a filtered message, leaves the state unchanged, so the message stays
eligible for retry); and a message whose timestamp is already in the
in-memory replied-set is never replied to again. -/
theorem replySystem_atMostOnce (evs : List ReplyEvent) :
    (∀ ts, ((runReply initialReplyState evs).replies).count ts ≤ 1) ∧
    (∀ st m, stepReply st (.message m false) = st) ∧
    (∀ st m ok, st.memory.contains m.ts = true → stepReply st (.message m ok) = st) ∧
    (∀ st m, shouldReplyToMessage st.memory m = true →
      (stepReply st (.message m true)).file = st.file ++ [m.ts]) := by
  refine ⟨?_, ?_, ?_, ?_⟩
  · intro ts
    have hinv : ReplyInv (runReply initialReplyState evs) :=
      runReply_preserves_inv _ _ ⟨rfl, fun _ h => absurd h (List.not_mem_nil _), List.nodup_nil⟩
    obtain ⟨hrf, _, hnd⟩ := hinv
    rw [hrf]
    exact List.nodup_iff_count_le_one.mp hnd ts
  · intro st m
    unfold stepReply processReplyMessage
    dsimp only
    split
    · rfl
    · rfl
  · intro st m ok hmem
    unfold stepReply processReplyMessage
    dsimp only
    have hs : shouldReplyToMessage st.memory m = false := by
      unfold shouldReplyToMessage
      rw [if_pos hmem]
    rw [hs]
    simp only [Bool.false_eq_true, if_false]
  · intro st m hs
    unfold stepReply processReplyMessage
    dsimp only
    rw [if_pos hs, if_pos rfl]

/-- Witness for C2: a run that successfully replies to a message, restarts,
and sees the same timestamp again produces exactly one logged reply; a state
that already remembers timestamp "1.1" ignores a new message with that
timestamp. -/
theorem replySystem_atMostOnce_witness :
    ((runReply initialReplyState
        [.message ⟨"1.1", "hello", none, none, some "U1"⟩ true,
         .restart,
         .message ⟨"1.1", "hello", none, none, some "U1"⟩ true]).replies).count "1.1" ≤ 1 ∧
    stepReply ⟨["1.1"], ["1.1"], ["1.1"]⟩ (.message ⟨"1.1", "hello", none, none, some "U1"⟩ true)
      = ⟨["1.1"], ["1.1"], ["1.1"]⟩ :=
  ⟨(replySystem_atMostOnce
      [.message ⟨"1.1", "hello", none, none, some "U1"⟩ true,
       .restart,
       .message ⟨"1.1", "hello", none, none, some "U1"⟩ true]).1 "1.1",
   (replySystem_atMostOnce []).2.2.1 ⟨["1.1"], ["1.1"], ["1.1"]⟩
     ⟨"1.1", "hello", none, none, some "U1"⟩ true (by decide)⟩

/-! ### `RedditMonitor.save_posts_to_unified_db` (reddit_monitor_unified.py, lines 271-336) -/

/-- The fields of a fetched Reddit post consumed by the ingestion upsert. -/
structure RedditPost where
  id : String
  title : String
  selftext : String
  author : String
  subreddit : String
deriving DecidableEq

/-- A stored message row as the ingestion adapter creates it.  The INSERT in
save_posts_to_unified_db does not list the processed column, so a new row
gets the schema default processed = FALSE
(create_unified_database.py, line 83). -/
structure StoredMsg where
  id : String
  content : String
  title : String
  author : String
  processed : Bool
deriving DecidableEq

/-- The derived primary key of a Reddit post. -/
def derivedId (p : RedditPost) : String := "reddit_" ++ p.id

/-- The row inserted for a new post; Python `post[selftext] or post[title]`
falls back to the title for an empty selftext. -/
def newRowOf (p : RedditPost) : StoredMsg :=
  { id := derivedId p,
    content := if p.selftext ≠ "" then p.selftext else p.title,
    title := p.title,
    author := p.author,
    processed := false }

/-- The loop body of `save_posts_to_unified_db`: skip a post whose derived id
already has a row, otherwise insert a fresh row and count it as new. -/
def saveGo (db : List StoredMsg) (n : Nat) : List RedditPost → List StoredMsg × Nat
  | [] => (db, n)
  | p :: ps =>
    if db.any (fun r => r.id = derivedId p) then saveGo db n ps
    else saveGo (db ++ [newRowOf p]) (n + 1) ps

/-- `RedditMonitor.save_posts_to_unified_db`: returns the updated table and
the count of new posts. -/
def savePostsToUnifiedDb (db : List StoredMsg) (posts : List RedditPost) :
    List StoredMsg × Nat :=
  saveGo db 0 posts

theorem saveGo_extends (db : List StoredMsg) (n : Nat) (posts : List RedditPost) :
    ∃ ext : List StoredMsg, (saveGo db n posts).1 = db ++ ext := by
  induction posts generalizing db n with
  | nil => exact ⟨[], by simp [saveGo]⟩
  | cons p ps ih =>
    unfold saveGo
    by_cases h : db.any (fun r => r.id = derivedId p) = true
    · rw [if_pos h]
      exact ih db n
    · rw [if_neg h]
      obtain ⟨ext, hext⟩ := ih (db ++ [newRowOf p]) (n + 1)
      exact ⟨newRowOf p :: ext, by rw [hext, List.append_assoc]; rfl⟩

theorem saveGo_ids (db : List StoredMsg) (n : Nat) (posts : List RedditPost) :
    ((saveGo db n posts).1.map (fun r => r.id)).toFinset =
      (db.map (fun r => r.id)).toFinset ∪ (posts.map derivedId).toFinset := by
  induction posts generalizing db n with
  | nil => simp [saveGo]
  | cons p ps ih =>
    unfold saveGo
    by_cases h : db.any (fun r => r.id = derivedId p) = true
    · rw [if_pos h, ih db n]
      have hin : derivedId p ∈ db.map (fun r => r.id) := by
        rcases List.any_eq_true.mp h with ⟨r, hr, hid⟩
        exact List.mem_map.mpr ⟨r, hr, of_decide_eq_true hid⟩
      ext a
      simp only [Finset.mem_union, List.mem_toFinset, List.map_cons, List.mem_cons]
      constructor
      · rintro (h1 | h1)
        · exact Or.inl h1
        · exact Or.inr (Or.inr h1)
      · rintro (h1 | h1 | h1)
        · exact Or.inl h1
        · rw [h1]
          exact Or.inl hin
        · exact Or.inr h1
    · rw [if_neg h]
      rw [ih (db ++ [newRowOf p]) (n + 1)]
      ext a
      simp only [Finset.mem_union, List.mem_toFinset, List.map_append, List.map_cons,
        List.mem_append, List.mem_cons, List.map_nil, List.mem_singleton, newRowOf,
        List.not_mem_nil, or_false]
      tauto

theorem saveGo_nodup (db : List StoredMsg) (n : Nat) (posts : List RedditPost)
    (h : (db.map (fun r => r.id)).Nodup) :
    ((saveGo db n posts).1.map (fun r => r.id)).Nodup := by
  induction posts generalizing db n with
  | nil => exact h
  | cons p ps ih =>
    unfold saveGo
    by_cases hx : db.any (fun r => r.id = derivedId p) = true
    · rw [if_pos hx]
      exact ih db n h
    · rw [if_neg hx]
      refine ih (db ++ [newRowOf p]) (n + 1) ?_
      rw [List.map_append, List.nodup_append]
      refine ⟨h, by simp, ?_⟩
      intro a ha hb
      simp only [List.map_cons, List.map_nil, List.mem_singleton, newRowOf] at hb
      rcases List.mem_map.mp ha with ⟨r, hr, hrid⟩
      apply hx
      refine List.any_eq_true.mpr ⟨r, hr, decide_eq_true ?_⟩
      rw [hrid, hb]

theorem saveGo_len (db : List StoredMsg) (n : Nat) (posts : List RedditPost) :
    (saveGo db n posts).1.length + n = db.length + (saveGo db n posts).2 := by
  induction posts generalizing db n with
  | nil => simp [saveGo]
  | cons p ps ih =>
    unfold saveGo
    by_cases h : db.any (fun r => r.id = derivedId p) = true
    · rw [if_pos h]
      exact ih db n
    · rw [if_neg h]
      have := ih (db ++ [newRowOf p]) (n + 1)
      simp only [List.length_append, List.length_singleton] at this
      omega

/-- C6.  Ingestion is idempotent: with a table whose ids are unique, after
save_posts_to_unified_db the ids are still unique (so ingesting an item twice
leaves exactly one row per derived id); every pre-existing row is preserved
verbatim (in particular its processed flag is never reset); the resulting id
set is the union of the old ids and the derived ids of the batch; and the
returned new-item count is exactly the number of distinct derived ids not
previously present. -/
theorem savePosts_idempotent (db : List StoredMsg) (posts : List RedditPost)
    (h : (db.map (fun r => r.id)).Nodup) :
    (((savePostsToUnifiedDb db posts).1.map (fun r => r.id)).Nodup) ∧
    (∃ ext, (savePostsToUnifiedDb db posts).1 = db ++ ext) ∧
    (((savePostsToUnifiedDb db posts).1.map (fun r => r.id)).toFinset =
      (db.map (fun r => r.id)).toFinset ∪ (posts.map derivedId).toFinset) ∧
    ((savePostsToUnifiedDb db posts).2 =
      ((posts.map derivedId).toFinset \ (db.map (fun r => r.id)).toFinset).card) := by
  refine ⟨saveGo_nodup db 0 posts h, saveGo_extends db 0 posts, saveGo_ids db 0 posts, ?_⟩
  have hlen := saveGo_len db 0 posts
  have hids := saveGo_ids db 0 posts
  have hnd := saveGo_nodup db 0 posts h
  have hcard1 : ((saveGo db 0 posts).1.map (fun r => r.id)).toFinset.card
      = (saveGo db 0 posts).1.length := by
    rw [List.toFinset_card_of_nodup hnd, List.length_map]
  have hcard2 : (db.map (fun r => r.id)).toFinset.card = db.length := by
    rw [List.toFinset_card_of_nodup h, List.length_map]
  have hU : ((db.map (fun r => r.id)).toFinset ∪ (posts.map derivedId).toFinset).card
      = (saveGo db 0 posts).1.length := by
    rw [← hids, hcard1]
  have hUc : ((posts.map derivedId).toFinset ∪ (db.map (fun r => r.id)).toFinset).card
      = (saveGo db 0 posts).1.length := by
    rw [Finset.union_comm]
    exact hU
  have hkey : ((posts.map derivedId).toFinset \ (db.map (fun r => r.id)).toFinset).card
        + (db.map (fun r => r.id)).toFinset.card
      = ((posts.map derivedId).toFinset ∪ (db.map (fun r => r.id)).toFinset).card :=
    Finset.card_sdiff_add_card _ _
  unfold savePostsToUnifiedDb
  omega

/-- Witness for C6: ingesting the same post twice in one batch, on top of a
table that already holds it with processed = true, leaves a single row with
processed still true and reports zero new items. -/
theorem savePosts_idempotent_witness :
    (((savePostsToUnifiedDb [⟨"reddit_p1", "c", "t", "a", true⟩]
        [⟨"p1", "t", "c", "a", "earnin"⟩, ⟨"p1", "t", "c", "a", "earnin"⟩]).1.map
          (fun r => r.id)).Nodup) ∧
    savePostsToUnifiedDb [⟨"reddit_p1", "c", "t", "a", true⟩]
        [⟨"p1", "t", "c", "a", "earnin"⟩, ⟨"p1", "t", "c", "a", "earnin"⟩]
      = ([⟨"reddit_p1", "c", "t", "a", true⟩], 0) :=
  ⟨(savePosts_idempotent [⟨"reddit_p1", "c", "t", "a", true⟩]
      [⟨"p1", "t", "c", "a", "earnin"⟩, ⟨"p1", "t", "c", "a", "earnin"⟩] (by decide)).1,
   by decide⟩

/-! ### `JiraTicketGenerator.get_ticket_for_message` (slack_reply_system.py, lines 132-142)

The generator hashes the message id with MD5, reads the first six hex digits
of the digest, and maps them into a ticket number.  MD5 (RFC 1321) is
embedded below: padding, little-endian word schedule, the 64-round
compression function with the standard sine-derived constant table, and the
final state addition.  Byte strings model Python str.encode() for ASCII ids. -/

/-- 2^32, the word modulus of MD5. -/
def m32 : Nat := 4294967296

/-- Addition modulo 2^32. -/
def add32 (a b : Nat) : Nat := (a + b) % m32

/-- Bitwise complement on 32-bit words (for a < 2^32). -/
def not32 (a : Nat) : Nat := 4294967295 - a

/-- Left rotation of a 32-bit word by s bits. -/
def rotl32 (x s : Nat) : Nat := (x * 2 ^ s) % m32 + x / 2 ^ (32 - s)

/-- The MD5 constant table: floor(abs(sin(i + 1)) * 2^32) for i < 64. -/
def mdK : List Nat :=
  [3614090360, 3905402710, 606105819, 3250441966, 4118548399, 1200080426, 2821735955,
   4249261313, 1770035416, 2336552879, 4294925233, 2304563134, 1804603682, 4254626195,
   2792965006, 1236535329, 4129170786, 3225465664, 643717713, 3921069994, 3593408605,
   38016083, 3634488961, 3889429448, 568446438, 3275163606, 4107603335, 1163531501,
   2850285829, 4243563512, 1735328473, 2368359562, 4294588738, 2272392833, 1839030562,
   4259657740, 2763975236, 1272893353, 4139469664, 3200236656, 681279174, 3936430074,
   3572445317, 76029189, 3654602809, 3873151461, 530742520, 3299628645, 4096336452,
   1126891415, 2878612391, 4237533241, 1700485571, 2399980690, 4293915773, 2240044497,
   1873313359, 4264355552, 2734768916, 1309151649, 4149444226, 3174756917, 718787259,
   3951481745]

/-- The MD5 per-round left-rotation amounts. -/
def mdS : List Nat :=
  [7, 12, 17, 22, 7, 12, 17, 22, 7, 12, 17, 22, 7, 12, 17, 22,
   5, 9, 14, 20, 5, 9, 14, 20, 5, 9, 14, 20, 5, 9, 14, 20,
   4, 11, 16, 23, 4, 11, 16, 23, 4, 11, 16, 23, 4, 11, 16, 23,
   6, 10, 15, 21, 6, 10, 15, 21, 6, 10, 15, 21, 6, 10, 15, 21]

/-- The MD5 round mixing function (F, G, H, I by round quarter). -/
def md5F (i b c d : Nat) : Nat :=
  if i < 16 then Nat.lor (Nat.land b c) (Nat.land (not32 b) d)
  else if i < 32 then Nat.lor (Nat.land d b) (Nat.land (not32 d) c)
  else if i < 48 then Nat.xor (Nat.xor b c) d
  else Nat.xor c (Nat.lor b (not32 d))

/-- The MD5 message-word index for round i. -/
def md5G (i : Nat) : Nat :=
  if i < 16 then i
  else if i < 32 then (5 * i + 1) % 16
  else if i < 48 then (3 * i + 5) % 16
  else (7 * i) % 16

/-- One MD5 round on the state (a, b, c, d). -/
def md5Step (M : List Nat) (st : Nat × Nat × Nat × Nat) (i : Nat) : Nat × Nat × Nat × Nat :=
  let f := (md5F i st.2.1 st.2.2.1 st.2.2.2 + st.1 + mdK.getD i 0 + M.getD (md5G i) 0) % m32
  (st.2.2.2, add32 st.2.1 (rotl32 f (mdS.getD i 0)), st.2.1, st.2.2.1)

/-- The sixteen little-endian 32-bit words of one 64-byte block. -/
def blockWords (block : List Nat) : List Nat :=
  (List.range 16).map (fun j =>
    block.getD (4 * j) 0 + 256 * block.getD (4 * j + 1) 0 +
    65536 * block.getD (4 * j + 2) 0 + 16777216 * block.getD (4 * j + 3) 0)

/-- The first n MD5 rounds applied to a state. -/
def md5Rounds (M : List Nat) (st : Nat × Nat × Nat × Nat) : Nat → Nat × Nat × Nat × Nat
  | 0 => st
  | i + 1 => md5Step M (md5Rounds M st i) i

/-- The MD5 compression function: 64 rounds, then the feed-forward addition
of the incoming state. -/
def md5ProcessBlock (st : Nat × Nat × Nat × Nat) (block : List Nat) : Nat × Nat × Nat × Nat :=
  let r := md5Rounds (blockWords block) st 64
  (add32 st.1 r.1, add32 st.2.1 r.2.1, add32 st.2.2.1 r.2.2.1, add32 st.2.2.2 r.2.2.2)

/-- MD5 padding: a 0x80 byte, zeros to 56 mod 64, then the bit length as a
little-endian 64-bit quantity. -/
def md5Pad (bytes : List Nat) : List Nat :=
  bytes ++ [128] ++ List.replicate ((119 - bytes.length % 64) % 64) 0 ++
    (List.range 8).map (fun j => 8 * bytes.length % 2 ^ 64 / 2 ^ (8 * j) % 256)

/-- Split a padded message into 64-byte blocks (the fuel, the list length,
dominates the block count). -/
def toBlocksGo : Nat → List Nat → List (List Nat)
  | 0, _ => []
  | _, [] => []
  | fuel + 1, c :: l => ((c :: l).take 64) :: toBlocksGo fuel ((c :: l).drop 64)

/-- The 64-byte blocks of a padded message. -/
def toBlocks (l : List Nat) : List (List Nat) := toBlocksGo l.length l

/-- The MD5 initial state A, B, C, D. -/
def md5Init : Nat × Nat × Nat × Nat := (1732584193, 4023233417, 2562383102, 271733878)

/-- The final MD5 state of a byte string. -/
def md5State (bytes : List Nat) : Nat × Nat × Nat × Nat :=
  (toBlocks (md5Pad bytes)).foldl md5ProcessBlock md5Init

/-- Python `int(hashlib.md5(x).hexdigest()[:6], 16)`: the first six hex
digits of the digest are the first three digest bytes, which are the three
low-order bytes of the little-endian first state word, read big-endian. -/
def md5First6HexVal (bytes : List Nat) : Nat :=
  (md5State bytes).1 % 256 * 65536 + (md5State bytes).1 / 256 % 256 * 256 +
    (md5State bytes).1 / 65536 % 256

/-- Python `message_id.encode()` for ASCII message ids. -/
def strBytes (s : String) : List Nat := s.data.map Char.toNat

/-- `JiraTicketGenerator.get_ticket_for_message`: a pure function of the
message id (therefore the same ticket on every call for the same id). -/
def getTicketForMessage (mid : String) : String :=
  "JIRA-" ++ toString (613400 + md5First6HexVal (strBytes mid) % 1000)

/-- The 1000 ticket strings the generator can ever produce. -/
def allTickets : List String :=
  (List.range 1000).map (fun k => "JIRA-" ++ toString (613400 + k))

set_option maxRecDepth 8000 in
/-- C10.  Every ticket has the form JIRA-n with 613400 <= n <= 614399; every
ticket lies in a fixed list of exactly 1000 strings (so at most 1000 distinct
tickets exist); and the two distinct message ids "b" and "msg_001" receive
the same ticket JIRA-613911.  Determinism per id holds because the generator
is a pure function of the id. -/
theorem getTicketForMessage_range_and_collision :
    (∀ mid : String, ∃ n : Nat, 613400 ≤ n ∧ n ≤ 614399 ∧
        getTicketForMessage mid = "JIRA-" ++ toString n) ∧
    (∀ mid : String, getTicketForMessage mid ∈ allTickets) ∧
    allTickets.length = 1000 ∧
    ("b" ≠ "msg_001") ∧
    getTicketForMessage "b" = getTicketForMessage "msg_001" ∧
    getTicketForMessage "b" = "JIRA-613911" := by
  refine ⟨?_, ?_, by simp [allTickets], by decide, by decide, by decide⟩
  · intro mid
    refine ⟨613400 + md5First6HexVal (strBytes mid) % 1000, by omega, ?_, rfl⟩
    have h := Nat.mod_lt (md5First6HexVal (strBytes mid)) (show 0 < 1000 by norm_num)
    omega
  · intro mid
    unfold getTicketForMessage allTickets
    exact List.mem_map.mpr
      ⟨md5First6HexVal (strBytes mid) % 1000,
       List.mem_range.mpr (Nat.mod_lt _ (by norm_num)), rfl⟩

/-! ### `FeedbackNormalizer.normalize_feedback` (feedback_mcp_server_unified.py, lines 316-378)

The three PII regexes are embedded as explicit backtracking matchers with
Python re semantics (leftmost match, greedy quantifiers with backtracking,
ASCII word boundaries):
  email  \\b[A-Za-z0-9._%+-]+@[A-Za-z0-9.-]+\\.[A-Z|a-z]\x7b2,\x7d\\b
         (the trailing class literally contains the bar character),
  phone  \\b\\d\x7b3\x7d[-.]?\\d\x7b3\x7d[-.]?\\d\x7b4\x7d\\b,
  card   \\b\\d\x7b4\x7d[-\\s]?\\d\x7b4\x7d[-\\s]?\\d\x7b4\x7d[-\\s]?\\d\x7b4\x7d\\b.
re.sub replaces the non-overlapping leftmost matches in the original string,
continuing after each match with the original character context. -/

def isWordChar (c : Char) : Bool := c.isAlphanum || c == '_'

def wOpt : Option Char → Bool
  | none => false
  | some c => isWordChar c

def bnd (p n : Option Char) : Bool := wOpt p != wOpt n

def pyStrip (s : List Char) : List Char :=
  ((s.dropWhile isPySpace).reverse.dropWhile isPySpace).reverse

def collapseWsGo : Bool → List Char → List Char
  | _, [] => []
  | prevSpace, c :: cs =>
    if isPySpace c then
      if prevSpace then collapseWsGo true cs
      else ' ' :: collapseWsGo true cs
    else c :: collapseWsGo false cs

def allowedChar (c : Char) : Bool :=
  isWordChar c || isPySpace c || c == '.' || c == ',' || c == '!' || c == '?' ||
    c == '-' || c == '@' || c == '#'

def cleanContent (s : String) : String :=
  String.mk ((collapseWsGo false (pyStrip s.data)).filter allowedChar)

def emailLocalChar (c : Char) : Bool :=
  c.isAlpha || c.isDigit || c == '.' || c == '_' || c == '%' || c == '+' || c == '-'

def emailDomainChar (c : Char) : Bool :=
  c.isAlpha || c.isDigit || c == '.' || c == '-'

def emailTldChar (c : Char) : Bool := c.isAlpha || c == '|'

def phoneSepChar (c : Char) : Bool := c == '-' || c == '.'

def cardSepChar (c : Char) : Bool := c == '-' || isPySpace c

def classRun (p : Char → Bool) : List Char → Nat
  | [] => 0
  | c :: cs => if p c then classRun p cs + 1 else 0

def tryDescFrom (f : Nat → Option Nat) : Nat → Nat → Option Nat
  | 0, _ => none
  | k + 1, cur =>
    match f cur with
    | some r => some r
    | none => tryDescFrom f k (cur - 1)

def digitsTake : Nat → List Char → Option (List Char)
  | 0, l => some l
  | _ + 1, [] => none
  | n + 1, c :: cs => if c.isDigit then digitsTake n cs else none

def tryOpt (sep : Char → Bool) (l : List Char) (k : List Char → Nat → Option Nat) : Option Nat :=
  match l with
  | c :: cs =>
    if sep c then
      match k cs 1 with
      | some r => some r
      | none => k l 0
    else k l 0
  | [] => k l 0

def emailMatchAt (prev : Option Char) (rest : List Char) : Option Nat :=
  if bnd prev rest.head? = false then none
  else
    let lmax := classRun emailLocalChar rest
    if lmax = 0 then none
    else
      tryDescFrom (fun llen =>
        if llen = 0 then none
        else
          match rest.drop llen with
          | '@' :: r2 =>
            let dmax := classRun emailDomainChar r2
            tryDescFrom (fun dlen =>
              if dlen = 0 then none
              else
                match r2.drop dlen with
                | '.' :: r4 =>
                  let tmax := classRun emailTldChar r4
                  if tmax < 2 then none
                  else
                    tryDescFrom (fun tlen =>
                      if tlen < 2 then none
                      else if bnd (r4.get? (tlen - 1)) ((r4.drop tlen).head?) then
                        some (llen + 1 + dlen + 1 + tlen)
                      else none) (tmax - 1) tmax
                | _ => none) dmax dmax
          | _ => none) lmax lmax

def phoneMatchAt (prev : Option Char) (rest : List Char) : Option Nat :=
  if bnd prev rest.head? = false then none
  else
    match digitsTake 3 rest with
    | none => none
    | some r1 =>
      tryOpt phoneSepChar r1 (fun r2 s1 =>
        match digitsTake 3 r2 with
        | none => none
        | some r3 =>
          tryOpt phoneSepChar r3 (fun r4 s2 =>
            match digitsTake 4 r4 with
            | none => none
            | some r5 =>
              if wOpt r5.head? then none else some (10 + s1 + s2)))

def cardMatchAt (prev : Option Char) (rest : List Char) : Option Nat :=
  if bnd prev rest.head? = false then none
  else
    match digitsTake 4 rest with
    | none => none
    | some r1 =>
      tryOpt cardSepChar r1 (fun r2 s1 =>
        match digitsTake 4 r2 with
        | none => none
        | some r3 =>
          tryOpt cardSepChar r3 (fun r4 s2 =>
            match digitsTake 4 r4 with
            | none => none
            | some r5 =>
              tryOpt cardSepChar r5 (fun r6 s3 =>
                match digitsTake 4 r6 with
                | none => none
                | some r7 =>
                  if wOpt r7.head? then none else some (16 + s1 + s2 + s3))))

def searchFrom (matcher : Option Char → List Char → Option Nat) :
    Option Char → List Char → Option (Nat × Nat)
  | prev, rest =>
    match matcher prev rest with
    | some len => some (0, len)
    | none =>
      match rest with
      | [] => none
      | c :: cs =>
        match searchFrom matcher (some c) cs with
        | some (i, len) => some (i + 1, len)
        | none => none

def reSearchStr (matcher : Option Char → List Char → Option Nat) (s : String) :
    Option (Nat × Nat) :=
  searchFrom matcher none s.data

def reTest (matcher : Option Char → List Char → Option Nat) (s : String) : Bool :=
  (reSearchStr matcher s).isSome

def detectPII (content : String) : Bool :=
  reTest emailMatchAt content || reTest phoneMatchAt content || reTest cardMatchAt content

def subFrom (matcher : Option Char → List Char → Option Nat) (repl : List Char) :
    Option Char → List Char → Nat → List Char
  | _, rest, 0 => rest
  | prev, rest, fuel + 1 =>
    match searchFrom matcher prev rest with
    | none => rest
    | some (i, len) =>
      rest.take i ++ repl ++
        subFrom matcher repl ((rest.drop i).take len).getLast? (rest.drop (i + len)) fuel

def reSub (matcher : Option Char → List Char → Option Nat) (repl : String) (s : String) :
    String :=
  String.mk (subFrom matcher repl.data none s.data (s.data.length + 1))

def stripPII (content : String) : String :=
  reSub cardMatchAt "[CARD]" (reSub phoneMatchAt "[PHONE]" (reSub emailMatchAt "[EMAIL]" content))

/-- `FeedbackNormalizer._detect_language` word list. -/
def englishWords : List String := ["the", "and", "is", "in", "to", "of", "a", "that", "it", "with"]

/-- `FeedbackNormalizer._detect_language`: tag en when strictly more than 10
percent of the lowercased whitespace-separated words are common English
stop-words (the comparison count > 0.1 * len is exact at these values). -/
def detectLanguage (content : String) : String :=
  let ws := pyWords (lowerStr content)
  if ((ws.filter (fun w => englishWords.contains w)).length) * 10 > ws.length then "en"
  else "unknown"

/-- The fields of a Feedback record written by the normalizer. -/
structure NormalizedFeedback where
  content : String
  language : String
  piiDetected : Bool
deriving DecidableEq

/-- `FeedbackNormalizer.normalize_feedback`: clean the content, detect the
language and PII on the cleaned content, and strip PII only when detected. -/
def normalizeFeedback (content : String) : NormalizedFeedback :=
  let c := cleanContent content
  { content := if detectPII c then stripPII c else c,
    language := detectLanguage c,
    piiDetected := detectPII c }

/-- Counterexample to C3 as stated: the raw input text "a@b.|c" contains a
substring matching the email PII regex (the bar sits in the TLD class
[A-Z|a-z]), yet normalize_feedback returns pii_detected = false and the
unstripped content "a@b.c" — cleaning removes the bar before detection runs,
so a raw-text PII match does not imply pii_detected = true. -/
theorem normalizeFeedback_rawMatch_counterexample :
    (reSearchStr emailMatchAt "a@b.|c").isSome = true ∧
    (normalizeFeedback "a@b.|c").piiDetected = false ∧
    (normalizeFeedback "a@b.|c").content = "a@b.c" := by
  refine ⟨by decide, by decide, by decide⟩

/-- C3 as amended.  PII detection and stripping operate on the CLEANED
content: normalize_feedback reports pii_detected = true exactly when the
cleaned content contains a match of the email, phone or card regex; when no
regex matches the cleaned content, the returned content is the cleaned
content, not PII-stripped; when one does, the returned content is the cleaned
content with the matches of the three regexes replaced, in sequence, by the
literal placeholders [EMAIL], [PHONE] and [CARD]. -/
theorem normalizeFeedback_cleanedSemantics (content : String) :
    ((normalizeFeedback content).piiDetected = detectPII (cleanContent content)) ∧
    (detectPII (cleanContent content) = false →
      (normalizeFeedback content).content = cleanContent content) ∧
    (detectPII (cleanContent content) = true →
      (normalizeFeedback content).content = stripPII (cleanContent content)) := by
  refine ⟨rfl, ?_, ?_⟩
  · intro h
    simp only [normalizeFeedback, h, Bool.false_eq_true, if_false]
  · intro h
    simp only [normalizeFeedback, h, if_true]

/-- Witness for C3 as amended at the concrete scenario input: the email and
the phone number are replaced by their placeholders in the cleaned content. -/
theorem normalizeFeedback_cleanedSemantics_witness :
    (normalizeFeedback "Contact john.doe@example.com or 555-123-4567").content
      = "Contact [EMAIL] or [PHONE]" :=
  ((normalizeFeedback_cleanedSemantics "Contact john.doe@example.com or 555-123-4567").2.2
    (by decide)).trans (by decide)

end EarninPipeline
